import Mathlib

/-!
Shallow embedding of the Solidity contract `CrowdfundingPlatformV2`
(src/unnamed/part_008) of the Decentralized-Crowdfunding-Platform repository.

Addresses are modelled as natural numbers, `uint256` as `Nat` (Solidity 0.8
uses checked arithmetic, which reverts instead of wrapping; the one checked
subtraction whose underflow is not excluded by an earlier `require` is
modelled by an explicit guard).  Solidity mappings are total functions with
the zero value of the value type as default.  A reverting call is an
`Except.error` carrying the `require` message; the caller-visible effect of a
reverted call is no state change at all.  Outgoing `transfer` calls are
modelled by the cumulative ledger `transferred`.
-/

namespace Crowdfunding

/-- Account addresses (`address`). -/
abbrev Addr := Nat

/-- Funding modes, in the contract's declaration order (part_008 lines 17-22):
Donation, Debit, Reward, Equity. -/
inductive FundingMode where
  | Donation
  | Debit
  | Reward
  | Equity
deriving DecidableEq, Repr

/-- Ordinal of a funding mode in the contract's enum order. -/
def FundingMode.toIdx : FundingMode → Nat
  | .Donation => 0
  | .Debit => 1
  | .Reward => 2
  | .Equity => 3

/-- Campaign statuses (part_008 lines 24-30). `Active` is the enum's first
value, hence the default of an uninitialised `Campaign` slot. -/
inductive CampaignStatus where
  | Active
  | Completed
  | Expired
  | UnderVoting
  | Failed
deriving DecidableEq, Repr

/-- One contribution entry (struct `Contribution`, part_008 lines 60-65).
The `timestamp` and `mode` fields are never read by any operation the claims
touch and are omitted. -/
structure Contribution where
  amount : Nat
  refunded : Bool
deriving DecidableEq, Repr

/-- Struct `Vote` (part_008 lines 67-70), the value type of the
`campaignVotes` mapping. -/
structure Vote where
  hasVoted : Bool
  votedForAllOrNothing : Bool
deriving DecidableEq, Repr

/-- Struct `Campaign` (part_008 lines 33-58). -/
structure Campaign where
  creator : Addr
  name : String
  description : String
  targetAmount : Nat
  deadline : Nat
  originalDeadline : Nat
  raisedAmount : Nat
  fundsReleased : Bool
  driveLink : String
  allowedModes : List FundingMode
  backersCount : Nat
  votingDeadline : Nat
  isAllOrNothing : Bool
  votesForAllOrNothing : Nat
  votesForKeepRaised : Nat
  status : CampaignStatus
  minContribution : Nat
  maxContribution : Nat
  votingEnabled : Bool
  totalVotes : Nat
  requiredVotes : Nat
  votingEndTime : Nat
  currentMode : FundingMode
  backers : List Addr
deriving DecidableEq, Repr

/-- The zero value of a `Campaign` mapping slot: every numeric field 0, every
bool false, strings and arrays empty, enums their first value. -/
def Campaign.empty : Campaign where
  creator := 0
  name := ""
  description := ""
  targetAmount := 0
  deadline := 0
  originalDeadline := 0
  raisedAmount := 0
  fundsReleased := false
  driveLink := ""
  allowedModes := []
  backersCount := 0
  votingDeadline := 0
  isAllOrNothing := false
  votesForAllOrNothing := 0
  votesForKeepRaised := 0
  status := .Active
  minContribution := 0
  maxContribution := 0
  votingEnabled := false
  totalVotes := 0
  requiredVotes := 0
  votingEndTime := 0
  currentMode := .Donation
  backers := []

/-- `VOTING_DURATION = 7 days` (part_008 line 75), in seconds. -/
def VOTING_DURATION : Nat := 604800

/-- `platformFee = 25` (part_008 line 74). -/
def platformFee : Nat := 25

/-- Contract storage plus the deployment-time constants: `owner` is the
`Ownable` administrator (the deployer), `transferred` records the cumulative
value sent to each address by `payable(x).transfer(y)`. -/
structure State where
  owner : Addr
  campaignIds : Nat
  campaignCount : Nat
  campaigns : Nat → Campaign
  contributions : Nat → Addr → List Contribution
  campaignVotes : Nat → Addr → Vote
  voterHasVoted : Nat → Addr → Bool
  voteWeight : Nat → Addr → Nat
  votes : Nat → Addr → FundingMode

  transferred : Addr → Nat

/-- Storage right after deployment: all mappings hold their zero values. -/
def initState (owner : Addr) : State where
  owner := owner
  campaignIds := 0
  campaignCount := 0
  campaigns := fun _ => Campaign.empty
  contributions := fun _ _ => []
  campaignVotes := fun _ _ => ⟨false, false⟩
  voterHasVoted := fun _ _ => false
  voteWeight := fun _ _ => 0
  votes := fun _ _ => .Donation
  transferred := fun _ => 0

/-- Point update of a two-level mapping. -/
def upd2 {β : Type} (f : Nat → Addr → β) (c : Nat) (a : Addr) (v : β) :
    Nat → Addr → β :=
  Function.update f c (Function.update (f c) a v)

/-- Value transfer `payable(a).transfer(v)`, recorded on the cumulative
ledger. -/
def sendValue (f : Addr → Nat) (a : Addr) (v : Nat) : Addr → Nat :=
  Function.update f a (f a + v)

/-- Sum of the amounts of the non-refunded entries of a contribution list. -/
def nonRefundedSum (l : List Contribution) : Nat :=
  ((l.filter fun e => !e.refunded).map fun e => e.amount).sum

/-- Amount of the first entry of a contribution list (`[0].amount`); the
single use site guards the list to be non-empty. -/
def headAmount : List Contribution → Nat
  | [] => 0
  | e :: _ => e.amount

/-- `createCampaign` (part_008 lines 142-179).  It writes the listed fields
of the slot `campaigns[campaignIds]` individually and does not touch the
remaining fields (`raisedAmount`, `backers`, ... keep their current value). -/
def createCampaign (sender now : Nat) (name description : String)
    (targetAmount deadline : Nat) (driveLink : String)
    (allowedModes : List FundingMode) (minContribution maxContribution : Nat)
    (s : State) : Except String State :=
  if targetAmount > 0 then
    if deadline > now then
      if name.length > 0 then
        if allowedModes.length > 0 then
          if minContribution ≤ maxContribution then
            let id := s.campaignIds
            let c := s.campaigns id
            let c := { c with
              creator := sender
              name := name
              description := description
              targetAmount := targetAmount
              deadline := deadline
              originalDeadline := deadline
              driveLink := driveLink
              allowedModes := allowedModes
              status := .Active
              minContribution := minContribution
              maxContribution := maxContribution
              votingDeadline := deadline + VOTING_DURATION }
            .ok { s with
              campaigns := Function.update s.campaigns id c
              campaignIds := s.campaignIds + 1
              campaignCount := s.campaignCount + 1 }
          else .error "Min contribution must be <= max"
        else .error "Must specify at least one funding mode"
      else .error "Name cannot be empty"
    else .error "Deadline must be in the future"
  else .error "Target amount must be greater than 0"

/-- `contribute` (part_008 lines 184-204).  The recording line 191,
`contributions[campaignId][msg.sender] += msg.value`, applies `+=` of a
`uint256` to the `Contribution[]` slot declared on line 79 and is therefore
ill-typed (the contract does not compile); consistently with that declared
entry-array type and with the reads in `vote` and `requestRefund`, the
recording is modelled as appending one non-refunded entry of the sent
amount. -/
def contribute (sender now value campaignId : Nat) (s : State) :
    Except String State :=
  let c := s.campaigns campaignId
  if c.status = CampaignStatus.Active then
    if value > 0 then
      if now ≤ c.deadline then
        let entries := s.contributions campaignId sender ++ [⟨value, false⟩]
        let c := { c with
          raisedAmount := c.raisedAmount + value
          backersCount := c.backersCount + 1
          backers := c.backers ++ [sender] }
        let c :=
          if c.raisedAmount ≥ c.targetAmount then
            { c with status := .Completed, deadline := now }
          else c
        .ok { s with
          campaigns := Function.update s.campaigns campaignId c
          contributions := upd2 s.contributions campaignId sender entries }
      else .error "Campaign has ended"
    else .error "Contribution must be greater than 0"
  else .error "Campaign is not active"

/-- `startVoting` (part_008 lines 209-220). -/
def startVoting (sender now campaignId : Nat) (s : State) :
    Except String State :=
  let c := s.campaigns campaignId
  if sender = c.creator then
    if c.votingEnabled = false then
      if c.raisedAmount ≥ c.targetAmount then
        let c' := { c with
          votingEnabled := true
          votingEndTime := now + 604800
          requiredVotes := c.backersCount / 2 }
        .ok { s with campaigns := Function.update s.campaigns campaignId c' }
      else .error "Target not reached"
    else .error "Voting already started"
  else .error "Only creator can start voting"

/-- `getCampaignBackers` (part_008 lines 285-299): walks the first
`backersCount` entries of `backers`, keeps those with a non-empty
contribution list, and returns them in a fresh array of length
`backersCount`, so the unfilled tail consists of zero addresses. -/
def getCampaignBackers (s : State) (campaignId : Nat) : List Addr :=
  let c := s.campaigns campaignId
  let picked := (c.backers.take c.backersCount).filter
    fun b => (s.contributions campaignId b).length > 0
  picked ++ List.replicate (c.backersCount - picked.length) 0

/-- Per-mode accumulated weight of `endVoting`'s tally loop (part_008 lines
254-262): `modeVotes[votes[b]] += voteWeight[b]` over every entry `b` of
`getCampaignBackers` with `voterHasVoted[b]`, expressed mode by mode. -/
def modeVotes (s : State) (campaignId : Nat) (m : FundingMode) : Nat :=
  (((getCampaignBackers s campaignId).filter fun b =>
      s.voterHasVoted campaignId b && s.votes campaignId b == m).map
    fun b => s.voteWeight campaignId b).sum

/-- Winner scan of `endVoting` (part_008 lines 264-273): `maxVotes` starts at
0 and `winningMode` at the first enum value; each mode in enum order replaces
the pair only when its tally is strictly greater. -/
def computeWinner (t : FundingMode → Nat) : FundingMode :=
  let acc : FundingMode × Nat := (.Donation, 0)
  let acc := if t .Donation > acc.2 then (FundingMode.Donation, t .Donation) else acc
  let acc := if t .Debit > acc.2 then (FundingMode.Debit, t .Debit) else acc
  let acc := if t .Reward > acc.2 then (FundingMode.Reward, t .Reward) else acc
  let acc := if t .Equity > acc.2 then (FundingMode.Equity, t .Equity) else acc
  acc.1

/-- `endVoting` (part_008 lines 249-280), internal, called from `vote` once
the threshold is met. -/
def endVoting (campaignId : Nat) (s : State) : Except String State :=
  let c := s.campaigns campaignId
  if c.votingEnabled = true then
    let c' := { c with
      currentMode := computeWinner (modeVotes s campaignId)
      votingEnabled := false }
    .ok { s with campaigns := Function.update s.campaigns campaignId c' }
  else .error "Voting not started"

/-- `vote` (part_008 lines 225-244): weight is the amount of the caller's
first contribution entry; the weight is added to `totalVotes`; `endVoting`
runs immediately when `totalVotes ≥ requiredVotes`. -/
def vote (sender now campaignId : Nat) (mode : FundingMode) (s : State) :
    Except String State :=
  let c := s.campaigns campaignId
  if c.votingEnabled = true then
    if now ≤ c.votingEndTime then
      if s.voterHasVoted campaignId sender = false then
        if (s.contributions campaignId sender).length > 0 then
          let weight := headAmount (s.contributions campaignId sender)
          let s' : State := { s with
            votes := upd2 s.votes campaignId sender mode
            voteWeight := upd2 s.voteWeight campaignId sender weight
            voterHasVoted := upd2 s.voterHasVoted campaignId sender true
            campaigns := Function.update s.campaigns campaignId
              ({ c with totalVotes := c.totalVotes + weight }) }
          if (s'.campaigns campaignId).totalVotes ≥
              (s'.campaigns campaignId).requiredVotes then
            endVoting campaignId s'
          else .ok s'
        else .error "No contribution found"
      else .error "Already voted"
    else .error "Voting ended"
  else .error "Voting not started"

/-- `finalizeCampaign` (part_008 lines 304-333). -/
def finalizeCampaign (sender now campaignId : Nat) (s : State) :
    Except String State :=
  if campaignId < s.campaignIds then
    let c := s.campaigns campaignId
    if now > c.votingDeadline then
      if c.status = CampaignStatus.UnderVoting then
        if c.fundsReleased = false then
          let isAoN := c.votesForAllOrNothing > c.votesForKeepRaised
          let c := { c with isAllOrNothing := isAoN }
          if isAoN ∧ c.raisedAmount < c.targetAmount then
            let c' : Campaign := { c with status := .Failed }
            .ok { s with
              campaigns := Function.update s.campaigns campaignId c' }
          else
            let fee := c.raisedAmount * platformFee / 1000
            let amount := c.raisedAmount - fee
            .ok { s with
              campaigns := Function.update s.campaigns campaignId
                ({ c with fundsReleased := true, status := .Completed })
              transferred :=
                sendValue (sendValue s.transferred c.creator amount)
                  s.owner fee }
        else .error "Funds already released"
      else .error "Campaign not in voting state"
    else .error "Voting period not ended"
  else .error "Campaign does not exist"

/-- `requestRefund` (part_008 lines 338-362): sums the caller's non-refunded
entries while marking every one refunded, then requires a positive total and
subtracts it from `raisedAmount` (a Solidity 0.8 checked subtraction,
modelled by the explicit underflow guard). -/
def requestRefund (sender now campaignId : Nat) (s : State) :
    Except String State :=
  if campaignId < s.campaignIds then
    let c := s.campaigns campaignId
    if c.status = CampaignStatus.Failed then
      let entries := s.contributions campaignId sender
      let refundAmount := nonRefundedSum entries
      let entries' := entries.map fun e => { e with refunded := true }
      if refundAmount > 0 then
        if refundAmount ≤ c.raisedAmount then
          .ok { s with
            contributions := upd2 s.contributions campaignId sender entries'
            campaigns := Function.update s.campaigns campaignId
              ({ c with raisedAmount := c.raisedAmount - refundAmount })
            transferred := sendValue s.transferred sender refundAmount }
        else .error "arithmetic underflow"
      else .error "No refund available"
    else .error "Refunds not available"
  else .error "Campaign does not exist"

/-- `updateCampaignStatus` (part_008 lines 367-377). -/
def updateCampaignStatus (sender now campaignId : Nat) (s : State) :
    Except String State :=
  if campaignId < s.campaignIds then
    let c := s.campaigns campaignId
    if c.status = CampaignStatus.Active ∧ now ≥ c.deadline then
      let c' : Campaign := { c with status := .UnderVoting }
      .ok { s with campaigns := Function.update s.campaigns campaignId c' }
    else .ok s
  else .error "Campaign does not exist"

/-- View `getVote` (part_008 lines 435-442): reads the `campaignVotes`
mapping. -/
def getVote (s : State) (campaignId : Nat) (voter : Addr) : Bool × Bool :=
  let v := s.campaignVotes campaignId voter
  (v.hasVoted, v.votedForAllOrNothing)

/-- View `hasVoted` (part_008 lines 447-454): reads the `campaignVotes`
mapping, behind the `campaignExists` modifier. -/
def hasVoted (s : State) (campaignId : Nat) (voter : Addr) :
    Except String Bool :=
  if campaignId < s.campaignIds then
    .ok (s.campaignVotes campaignId voter).hasVoted
  else .error "Campaign does not exist"

/-- One external call: every state-mutating entry point of the contract,
with its caller, its call-time block timestamp, and its arguments. -/
inductive Act where
  | createCampaign (sender now : Nat) (name description : String)
      (targetAmount deadline : Nat) (driveLink : String)
      (allowedModes : List FundingMode) (minContribution maxContribution : Nat)
  | contribute (sender now value campaignId : Nat)
  | startVoting (sender now campaignId : Nat)
  | vote (sender now campaignId : Nat) (mode : FundingMode)
  | finalizeCampaign (sender now campaignId : Nat)
  | requestRefund (sender now campaignId : Nat)
  | updateCampaignStatus (sender now campaignId : Nat)

/-- Run one external call. -/
def Act.run : Act → State → Except String State
  | .createCampaign sender now name description targetAmount deadline
      driveLink allowedModes minC maxC =>
    Crowdfunding.createCampaign sender now name description targetAmount
      deadline driveLink allowedModes minC maxC
  | .contribute sender now value campaignId =>
    Crowdfunding.contribute sender now value campaignId
  | .startVoting sender now campaignId =>
    Crowdfunding.startVoting sender now campaignId
  | .vote sender now campaignId mode =>
    Crowdfunding.vote sender now campaignId mode
  | .finalizeCampaign sender now campaignId =>
    Crowdfunding.finalizeCampaign sender now campaignId
  | .requestRefund sender now campaignId =>
    Crowdfunding.requestRefund sender now campaignId
  | .updateCampaignStatus sender now campaignId =>
    Crowdfunding.updateCampaignStatus sender now campaignId

/-- Effect of one external call on storage: a reverted call leaves storage
unchanged. -/
def step (a : Act) (s : State) : State :=
  match a.run s with
  | .ok s' => s'
  | .error _ => s

/-- States reachable from deployment by any sequence of external calls. -/
inductive Reachable (owner : Addr) : State → Prop where
  | init : Reachable owner (initState owner)
  | step {s : State} (h : Reachable owner s) (a : Act) :
      Reachable owner (step a s)

/-- Run a call sequence from deployment (deployer = address 0). -/
def execTrace (acts : List Act) : State :=
  acts.foldl (fun s a => step a s) (initState 0)



/-- Truth value of a call having succeeded. -/
def execOk {α : Type} : Except String α → Bool
  | .ok _ => true
  | .error _ => false

/-- Campaign 0 of the Scenario-D shape: target 1000 reached by a single
contribution, so `contribute` switched it to `Completed`. -/
def completedState : State := execTrace
  [.createCampaign 1 1 "a" "" 1000 10 "" [.Donation] 0 1000000,
   .contribute 2 2 1000 0]

/-- Campaign 0 moved to `UnderVoting`: target 2000 missed at the deadline,
then `updateCampaignStatus` ran past the deadline. -/
def underVotingState : State := execTrace
  [.createCampaign 1 1 "a" "" 2000 10 "" [.Donation] 0 1000000,
   .contribute 2 2 1000 0,
   .updateCampaignStatus 2 20 0]

/-- Campaign 0 fully funded by one backer (address 2, one entry of 100). -/
def fundedState : State := execTrace
  [.createCampaign 1 1 "a" "" 100 10 "" [.Donation] 0 100,
   .contribute 2 2 100 0]

/-- `fundedState` after the creator started voting (`requiredVotes = 0`). -/
def votingOpenState : State := step (.startVoting 1 3 0) fundedState

/-- `votingOpenState` after backer 2 voted `Donation`. -/
def votedState : State := step (.vote 2 4 0 .Donation) votingOpenState

/-- Campaign 0 where backer 2 holds the three entries 30, 30, 40 and voting
is open with `requiredVotes = 1`. -/
def threeEntriesState : State := execTrace
  [.createCampaign 1 1 "a" "" 100 10 "" [.Donation] 0 100,
   .contribute 2 2 30 0, .contribute 2 3 30 0, .contribute 2 4 40 0,
   .startVoting 1 5 0]

/-- `threeEntriesState` after backer 2 voted `Donation`. -/
def threeEntriesVoted : State := step (.vote 2 6 0 .Donation) threeEntriesState

/-- Campaign 0 after address 2 contributed twice. -/
def doubleContribState : State := execTrace
  [.createCampaign 1 1 "a" "" 1000 10 "" [.Donation] 0 1000000,
   .contribute 2 2 5 0, .contribute 2 3 5 0]

/-- Campaign 0 past its deadline (10) with 400 of 1000 raised. -/
def shortfallState : State := execTrace
  [.createCampaign 1 1 "a" "" 1000 10 "" [.Donation] 0 1000000,
   .contribute 2 2 400 0]

/-- Campaign 0 with bounds minContribution = 10, maxContribution = 20. -/
def boundedState : State := execTrace
  [.createCampaign 1 1 "a" "" 1000 10 "" [.Donation] 10 20]

/-- Voting run where backers 2 and 3 contributed 3 each (one entry each) and
six fillers 1 wei each; 2 voted Debit, then 3 voted Donation, which closed
voting (`totalVotes = 6 ≥ requiredVotes = 4`). -/
def tieTraceA : State := execTrace
  [.createCampaign 1 1 "a" "" 12 10 "" [.Donation] 0 1000000,
   .contribute 2 2 3 0, .contribute 3 2 3 0,
   .contribute 4 2 1 0, .contribute 5 2 1 0, .contribute 6 2 1 0,
   .contribute 7 2 1 0, .contribute 8 2 1 0, .contribute 9 2 1 0,
   .startVoting 1 3 0,
   .vote 2 4 0 .Debit, .vote 3 5 0 .Donation]

/-- Same two votes as `tieTraceA` (2 → Debit weight 3, 3 → Donation weight
3), but backer 2 contributed twice, so it occurs twice in `backers`. -/
def tieTraceB : State := execTrace
  [.createCampaign 1 1 "a" "" 14 10 "" [.Donation] 0 1000000,
   .contribute 2 2 3 0, .contribute 2 2 3 0, .contribute 3 2 3 0,
   .contribute 4 2 1 0, .contribute 5 2 1 0, .contribute 6 2 1 0,
   .contribute 7 2 1 0, .contribute 8 2 1 0,
   .startVoting 1 3 0,
   .vote 2 4 0 .Debit, .vote 3 5 0 .Donation]


/-- Campaign 0 after a single contribution of 5 by address 2 (prefix of
`doubleContribState`). -/
def singleContribState : State := execTrace
  [.createCampaign 1 1 "a" "" 1000 10 "" [.Donation] 0 1000000,
   .contribute 2 2 5 0]

/-- A tied tally: Donation and Debit both carry weight 3. -/
def tieTally : FundingMode → Nat
  | .Donation => 3
  | .Debit => 3
  | _ => 0

/-- Result state of running `endVoting` on `votingOpenState`. -/
def endVotingResult : State :=
  match endVoting 0 votingOpenState with
  | .ok t => t
  | .error _ => votingOpenState

/-! ## Invariant machinery -/

/-- Per-campaign, per-address reads of `upd2` at the written pair. -/
theorem upd2_self {β : Type} (f : Nat → Addr → β) (c : Nat) (a : Addr) (v : β) :
    upd2 f c a v c = Function.update (f c) a v := by
  simp [upd2]

/-- Per-campaign reads of `upd2` at another campaign. -/
theorem upd2_ne {β : Type} (f : Nat → Addr → β) (c : Nat) (a : Addr) (v : β)
    {c' : Nat} (h : c' ≠ c) : upd2 f c a v c' = f c' := by
  simp [upd2, Function.update_noteq h]

/-- Appending one non-refunded entry adds its amount to the non-refunded
total. -/
theorem nonRefundedSum_append (l : List Contribution) (v : Nat) :
    nonRefundedSum (l ++ [⟨v, false⟩]) = nonRefundedSum l + v := by
  simp [nonRefundedSum]

/-- Marking every entry refunded zeroes the non-refunded total. -/
theorem nonRefundedSum_markAll (l : List Contribution) :
    nonRefundedSum (l.map fun e => { e with refunded := true }) = 0 := by
  induction l with
  | nil => rfl
  | cons e t ih => simpa [nonRefundedSum] using ih

/-- Composition of a function with a point update. -/
theorem comp_update {α β γ : Type} [DecidableEq α] (g : β → γ) (f : α → β)
    (x : α) (v : β) :
    (fun a => g (Function.update f x v a)) =
      Function.update (fun a => g (f a)) x (g v) := by
  funext a
  by_cases h : a = x <;> simp [Function.update, h]

/-- Effect of a point update on a non-refunded-total sum over a finite set
containing the updated address. -/
theorem sum_nonRefunded_update_mem (B : Finset Addr)
    (f : Addr → List Contribution) (x : Addr) (E : List Contribution)
    (hx : x ∈ B) :
    (∑ a ∈ B, nonRefundedSum (Function.update f x E a)) +
      nonRefundedSum (f x) =
    (∑ a ∈ B, nonRefundedSum (f a)) + nonRefundedSum E := by
  rw [show (fun a => nonRefundedSum (Function.update f x E a)) =
      Function.update (fun a => nonRefundedSum (f a)) x (nonRefundedSum E)
    from comp_update nonRefundedSum f x E]
  rw [Finset.sum_update_of_mem hx, Finset.sdiff_singleton_eq_erase]
  rw [← Finset.add_sum_erase B (fun a => nonRefundedSum (f a)) hx]
  omega

/-- Effect of a point update outside the summation set. -/
theorem sum_nonRefunded_update_not_mem (B : Finset Addr)
    (f : Addr → List Contribution) (x : Addr) (E : List Contribution)
    (hx : x ∉ B) :
    (∑ a ∈ B, nonRefundedSum (Function.update f x E a)) =
    ∑ a ∈ B, nonRefundedSum (f a) := by
  refine Finset.sum_congr rfl fun a ha => ?_
  have : a ≠ x := fun h => hx (h ▸ ha)
  rw [Function.update_noteq this]

/-- The state invariant maintained by every external call: contributions sit
only under recorded backers; `raisedAmount` is the non-refunded contribution
total; the two legacy tally fields stay zero; no campaign is `Failed`; the
`campaignVotes` mapping stays at its zero value; `backersCount` is the
length of the backer sequence. -/
def Inv (s : State) : Prop :=
  (∀ cid a, a ∉ (s.campaigns cid).backers → s.contributions cid a = []) ∧
  (∀ cid, (s.campaigns cid).raisedAmount =
    ∑ a ∈ (s.campaigns cid).backers.toFinset,
      nonRefundedSum (s.contributions cid a)) ∧
  (∀ cid, (s.campaigns cid).votesForAllOrNothing = 0) ∧
  (∀ cid, (s.campaigns cid).votesForKeepRaised = 0) ∧
  (∀ cid, (s.campaigns cid).status ≠ .Failed) ∧
  (∀ cid a, s.campaignVotes cid a = ⟨false, false⟩) ∧
  (∀ cid, (s.campaigns cid).backersCount = (s.campaigns cid).backers.length)

/-- The deployment state satisfies the invariant. -/
theorem inv_init (owner : Addr) : Inv (initState owner) := by
  refine ⟨?_, ?_, ?_, ?_, ?_, ?_, ?_⟩ <;>
    intros <;> simp [initState, Campaign.empty, nonRefundedSum]

/-- A state change that rewrites one campaign slot without touching its
ledger-relevant fields, and arbitrarily rewrites the fields the invariant
does not mention, preserves the invariant. -/
theorem inv_update (s : State) (h : Inv s) (cid : Nat) (c' : Campaign)
    (ids cnt : Nat) (vts : Nat → Addr → FundingMode) (vw : Nat → Addr → Nat)
    (vhv : Nat → Addr → Bool) (tr : Addr → Nat)
    (hr : c'.raisedAmount = (s.campaigns cid).raisedAmount)
    (hb : c'.backers = (s.campaigns cid).backers)
    (hbc : c'.backersCount = (s.campaigns cid).backersCount)
    (ha : c'.votesForAllOrNothing = (s.campaigns cid).votesForAllOrNothing)
    (hk : c'.votesForKeepRaised = (s.campaigns cid).votesForKeepRaised)
    (hst : c'.status ≠ .Failed) :
    Inv { s with campaigns := Function.update s.campaigns cid c',
                 campaignIds := ids, campaignCount := cnt,
                 votes := vts, voteWeight := vw, voterHasVoted := vhv,
                 transferred := tr } := by
  obtain ⟨h1, h2, h3, h4, h5, h6, h7⟩ := h
  refine ⟨?_, ?_, ?_, ?_, ?_, ?_, ?_⟩
  · intro cid' a
    by_cases hc : cid' = cid
    · subst hc; simpa [Function.update_same, hb] using h1 cid' a
    · simpa [Function.update_noteq hc] using h1 cid' a
  · intro cid'
    by_cases hc : cid' = cid
    · subst hc; simpa [Function.update_same, hb, hr] using h2 cid'
    · simpa [Function.update_noteq hc] using h2 cid'
  · intro cid'
    by_cases hc : cid' = cid
    · subst hc; simpa [Function.update_same, ha] using h3 cid'
    · simpa [Function.update_noteq hc] using h3 cid'
  · intro cid'
    by_cases hc : cid' = cid
    · subst hc; simpa [Function.update_same, hk] using h4 cid'
    · simpa [Function.update_noteq hc] using h4 cid'
  · intro cid'
    by_cases hc : cid' = cid
    · subst hc; simpa [Function.update_same] using hst
    · simpa [Function.update_noteq hc] using h5 cid'
  · intro cid' a; exact h6 cid' a
  · intro cid'
    by_cases hc : cid' = cid
    · subst hc; simpa [Function.update_same, hb, hbc] using h7 cid'
    · simpa [Function.update_noteq hc] using h7 cid'

/-- A list extended on the right has the toFinset of the inserted element. -/
theorem toFinset_append_singleton (l : List Addr) (x : Addr) :
    (l ++ [x]).toFinset = insert x l.toFinset := by
  ext y; simp [or_comm]

/-- `createCampaign` preserves the invariant. -/
theorem inv_createCampaign {s s' : State} (h : Inv s) (sender now : Nat)
    (name description : String) (targetAmount deadline : Nat)
    (driveLink : String) (allowedModes : List FundingMode) (minC maxC : Nat)
    (hok : createCampaign sender now name description targetAmount deadline
      driveLink allowedModes minC maxC s = .ok s') : Inv s' := by
  simp only [createCampaign] at hok
  repeat split at hok
  all_goals try exact Except.noConfusion hok
  injection hok with h'
  subst h'
  exact inv_update s h _ _ _ _ _ _ _ _ rfl rfl rfl rfl rfl (by simp)

/-- `startVoting` preserves the invariant. -/
theorem inv_startVoting {s s' : State} (h : Inv s) (sender now cid : Nat)
    (hok : startVoting sender now cid s = .ok s') : Inv s' := by
  simp only [startVoting] at hok
  repeat split at hok
  all_goals try exact Except.noConfusion hok
  injection hok with h'
  subst h'
  exact inv_update s h cid _ _ _ _ _ _ _ rfl rfl rfl rfl rfl
    (h.2.2.2.2.1 cid)

/-- `endVoting` preserves the invariant. -/
theorem inv_endVoting {s s' : State} (h : Inv s) (cid : Nat)
    (hok : endVoting cid s = .ok s') : Inv s' := by
  simp only [endVoting] at hok
  split at hok
  · injection hok with h'
    subst h'
    exact inv_update s h cid _ _ _ _ _ _ _ rfl rfl rfl rfl rfl
      (h.2.2.2.2.1 cid)
  · exact Except.noConfusion hok

/-- `vote` preserves the invariant. -/
theorem inv_vote {s s' : State} (h : Inv s) (sender now cid : Nat)
    (mode : FundingMode) (hok : vote sender now cid mode s = .ok s') :
    Inv s' := by
  simp only [vote] at hok
  repeat split at hok
  all_goals try exact Except.noConfusion hok
  · refine inv_endVoting ?_ cid hok
    exact inv_update s h cid _ _ _ _ _ _ _ rfl rfl rfl rfl rfl
      (h.2.2.2.2.1 cid)
  · injection hok with h'
    subst h'
    exact inv_update s h cid _ _ _ _ _ _ _ rfl rfl rfl rfl rfl
      (h.2.2.2.2.1 cid)

/-- `finalizeCampaign` preserves the invariant: under the invariant the two
legacy tally fields are zero, so the `Failed` branch is unreachable and the
release branch only moves the status to `Completed`. -/
theorem inv_finalizeCampaign {s s' : State} (h : Inv s) (sender now cid : Nat)
    (hok : finalizeCampaign sender now cid s = .ok s') : Inv s' := by
  simp only [finalizeCampaign] at hok
  repeat split at hok
  all_goals try exact Except.noConfusion hok
  all_goals try (exfalso; have h3 := h.2.2.1 cid; omega)
  injection hok with h'
  subst h'
  exact inv_update s h cid _ _ _ _ _ _ _ rfl rfl rfl rfl rfl (by simp)

/-- `requestRefund` preserves the invariant: under the invariant no campaign
is `Failed`, so the call always reverts. -/
theorem inv_requestRefund {s s' : State} (h : Inv s) (sender now cid : Nat)
    (hok : requestRefund sender now cid s = .ok s') : Inv s' := by
  simp only [requestRefund] at hok
  repeat split at hok
  all_goals try exact Except.noConfusion hok
  all_goals exact absurd (by assumption) (h.2.2.2.2.1 cid)

/-- `updateCampaignStatus` preserves the invariant. -/
theorem inv_updateCampaignStatus {s s' : State} (h : Inv s)
    (sender now cid : Nat)
    (hok : updateCampaignStatus sender now cid s = .ok s') : Inv s' := by
  simp only [updateCampaignStatus] at hok
  repeat split at hok
  all_goals try exact Except.noConfusion hok
  all_goals injection hok with h'
  all_goals subst h'
  · exact inv_update s h cid _ _ _ _ _ _ _ rfl rfl rfl rfl rfl (by simp)
  · exact h

/-- Core of `contribute`'s invariant preservation: appending one entry of
the sent amount under the sender while adding the same amount to
`raisedAmount` and recording the sender once more as a backer keeps the
ledger equation. -/
theorem inv_contribute_aux (s : State) (sender value cid : Nat)
    (c' : Campaign)
    (hr : c'.raisedAmount = (s.campaigns cid).raisedAmount + value)
    (hb : c'.backers = (s.campaigns cid).backers ++ [sender])
    (hbc : c'.backersCount = (s.campaigns cid).backersCount + 1)
    (ha : c'.votesForAllOrNothing = (s.campaigns cid).votesForAllOrNothing)
    (hk : c'.votesForKeepRaised = (s.campaigns cid).votesForKeepRaised)
    (hst : c'.status ≠ .Failed)
    (h : Inv s) :
    Inv { s with
          campaigns := Function.update s.campaigns cid c'
          contributions := upd2 s.contributions cid sender
            (s.contributions cid sender ++ [⟨value, false⟩]) } := by
  obtain ⟨h1, h2, h3, h4, h5, h6, h7⟩ := h
  refine ⟨?_, ?_, ?_, ?_, ?_, ?_, ?_⟩
  all_goals dsimp only
  · intro cid' a hmem
    by_cases hc : cid' = cid
    · subst hc
      rw [Function.update_same, hb] at hmem
      simp only [List.mem_append, List.mem_singleton] at hmem
      push_neg at hmem
      show upd2 s.contributions cid' sender _ cid' a = []
      rw [upd2_self, Function.update_noteq hmem.2]
      exact h1 cid' a hmem.1
    · rw [Function.update_noteq hc] at hmem
      show upd2 s.contributions cid sender _ cid' a = []
      rw [upd2_ne _ _ _ _ hc]
      exact h1 cid' a hmem
  · intro cid'
    by_cases hc : cid' = cid
    · subst hc
      rw [Function.update_same, upd2_self, hr, hb, toFinset_append_singleton]
      by_cases hm : sender ∈ (s.campaigns cid').backers.toFinset
      · rw [Finset.insert_eq_self.mpr hm]
        have key := sum_nonRefunded_update_mem
          (s.campaigns cid').backers.toFinset (s.contributions cid') sender
          (s.contributions cid' sender ++ [⟨value, false⟩]) hm
        rw [nonRefundedSum_append] at key
        have hold := h2 cid'
        omega
      · rw [Finset.sum_insert hm, Function.update_same,
          sum_nonRefunded_update_not_mem _ _ _ _ hm]
        have hnil : s.contributions cid' sender = [] :=
          h1 cid' sender (by simpa using hm)
        rw [hnil]
        have hold := h2 cid'
        simp only [List.nil_append]
        have : nonRefundedSum [⟨value, false⟩] = value := by
          simp [nonRefundedSum]
        omega
    · rw [Function.update_noteq hc, upd2_ne _ _ _ _ hc]
      exact h2 cid'
  · intro cid'
    by_cases hc : cid' = cid
    · subst hc; rw [Function.update_same, ha]; exact h3 cid'
    · rw [Function.update_noteq hc]; exact h3 cid'
  · intro cid'
    by_cases hc : cid' = cid
    · subst hc; rw [Function.update_same, hk]; exact h4 cid'
    · rw [Function.update_noteq hc]; exact h4 cid'
  · intro cid'
    by_cases hc : cid' = cid
    · subst hc; rw [Function.update_same]; exact hst
    · rw [Function.update_noteq hc]; exact h5 cid'
  · intro cid' a; exact h6 cid' a
  · intro cid'
    by_cases hc : cid' = cid
    · subst hc
      rw [Function.update_same, hbc, hb, List.length_append]
      simp [h7 cid']
    · rw [Function.update_noteq hc]; exact h7 cid'

/-- `contribute` preserves the invariant. -/
theorem inv_contribute {s s' : State} (h : Inv s) (sender now value cid : Nat)
    (hok : contribute sender now value cid s = .ok s') : Inv s' := by
  simp only [contribute] at hok
  repeat split at hok
  all_goals try exact Except.noConfusion hok
  all_goals injection hok with h'
  all_goals subst h'
  all_goals refine inv_contribute_aux s sender value cid _ ?_ ?_ ?_ ?_ ?_ ?_ h
  all_goals first
    | rfl
    | simp_all

/-- Every reachable state satisfies the invariant. -/
theorem inv_reachable {owner : Addr} {s : State}
    (h : Reachable owner s) : Inv s := by
  induction h with
  | init => exact inv_init owner
  | step h a ih =>
    show Inv (step a _)
    unfold step
    split
    case h_1 s0 t heq =>
      cases a with
      | createCampaign sender now name description targetAmount deadline
          driveLink allowedModes minC maxC =>
        exact inv_createCampaign ih sender now name description targetAmount
          deadline driveLink allowedModes minC maxC heq
      | contribute sender now value campaignId =>
        exact inv_contribute ih sender now value campaignId heq
      | startVoting sender now campaignId =>
        exact inv_startVoting ih sender now campaignId heq
      | vote sender now campaignId mode =>
        exact inv_vote ih sender now campaignId mode heq
      | finalizeCampaign sender now campaignId =>
        exact inv_finalizeCampaign ih sender now campaignId heq
      | requestRefund sender now campaignId =>
        exact inv_requestRefund ih sender now campaignId heq
      | updateCampaignStatus sender now campaignId =>
        exact inv_updateCampaignStatus ih sender now campaignId heq
    case h_2 => exact ih

/-- Ledger part of the invariant: contributions sit only under recorded
backers and `raisedAmount` equals the non-refunded contribution total. -/
def LedgerInv (s : State) : Prop :=
  (∀ cid a, a ∉ (s.campaigns cid).backers → s.contributions cid a = []) ∧
  (∀ cid, (s.campaigns cid).raisedAmount =
    ∑ a ∈ (s.campaigns cid).backers.toFinset,
      nonRefundedSum (s.contributions cid a))

/-- Every call sequence from deployment ends in a reachable state. -/
theorem reachable_execTrace (acts : List Act) : Reachable 0 (execTrace acts) := by
  suffices h : ∀ s, Reachable 0 s →
      Reachable 0 (acts.foldl (fun s a => step a s) s) from
    h _ Reachable.init
  induction acts with
  | nil => exact fun s hs => hs
  | cons a t ih => exact fun s hs => ih _ (Reachable.step hs a)

/-- Explicit effect of a successful `contribute` call on the touched
fields. -/
theorem contribute_ok_effects {s s' : State} {sender now value cid : Nat}
    (hok : contribute sender now value cid s = .ok s') :
    s'.contributions cid sender =
      s.contributions cid sender ++ [⟨value, false⟩] ∧
    (s'.campaigns cid).raisedAmount = (s.campaigns cid).raisedAmount + value ∧
    (s'.campaigns cid).backers = (s.campaigns cid).backers ++ [sender] ∧
    (s'.campaigns cid).backersCount = (s.campaigns cid).backersCount + 1 ∧
    s'.voteWeight = s.voteWeight := by
  simp only [contribute] at hok
  repeat split at hok
  all_goals try exact Except.noConfusion hok
  all_goals injection hok with h'
  all_goals subst h'
  all_goals refine ⟨?_, ?_, ?_, ?_, rfl⟩ <;>
    simp [upd2_self, Function.update_same]

/-- A successful `requestRefund` marks every entry of the caller refunded
and subtracts exactly the caller's non-refunded total from `raisedAmount`,
and keeps the ledger equation. -/
theorem ledger_requestRefund {s s' : State} (h : LedgerInv s)
    {sender now cid : Nat} (hok : requestRefund sender now cid s = .ok s') :
    s'.contributions cid sender =
      (s.contributions cid sender).map (fun e => { e with refunded := true }) ∧
    (s'.campaigns cid).raisedAmount =
      (s.campaigns cid).raisedAmount -
        nonRefundedSum (s.contributions cid sender) ∧
    LedgerInv s' := by
  obtain ⟨h1, h2⟩ := h
  simp only [requestRefund] at hok
  repeat split at hok
  all_goals try exact Except.noConfusion hok
  injection hok with h'
  subst h'
  have hpos : nonRefundedSum (s.contributions cid sender) > 0 := by assumption
  have hsender : sender ∈ (s.campaigns cid).backers := by
    by_contra hn
    rw [h1 cid sender hn] at hpos
    simp [nonRefundedSum] at hpos
  refine ⟨?_, ?_, ?_, ?_⟩
  all_goals dsimp only
  · rw [upd2_self, Function.update_same]
  · rw [Function.update_same]
  · intro cid' a hmem
    by_cases hc : cid' = cid
    · subst hc
      rw [Function.update_same] at hmem
      by_cases ha : a = sender
      · subst ha
        rw [upd2_self, Function.update_same, h1 cid' a hmem]
        rfl
      · rw [upd2_self, Function.update_noteq ha]
        exact h1 cid' a hmem
    · rw [Function.update_noteq hc] at hmem
      rw [upd2_ne _ _ _ _ hc]
      exact h1 cid' a hmem
  · intro cid'
    by_cases hc : cid' = cid
    · subst hc
      rw [Function.update_same, upd2_self]
      have hmem : sender ∈ (s.campaigns cid').backers.toFinset := by
        simpa using hsender
      have key := sum_nonRefunded_update_mem
        (s.campaigns cid').backers.toFinset (s.contributions cid') sender
        ((s.contributions cid' sender).map fun e => { e with refunded := true })
        hmem
      rw [nonRefundedSum_markAll] at key
      have hold := h2 cid'
      dsimp only
      omega
    · rw [Function.update_noteq hc, upd2_ne _ _ _ _ hc]
      exact h2 cid'

/-- The winner scan yields the least-ordinal mode among those with the
greatest tally: no mode beats it, and every strictly lower-ordinal mode has
a strictly smaller tally. -/
theorem computeWinner_spec (t : FundingMode → Nat) :
    (∀ m, t m ≤ t (computeWinner t)) ∧
    (∀ m, m.toIdx < (computeWinner t).toIdx → t m < t (computeWinner t)) := by
  simp only [computeWinner]
  split_ifs <;>
    constructor <;>
    intro m <;>
    cases m <;>
    simp_all [FundingMode.toIdx] <;>
    omega

/-- Explicit effect of a successful `startVoting` call. -/
theorem startVoting_ok_effects {s s' : State} {sender now cid : Nat}
    (hok : startVoting sender now cid s = .ok s') :
    (s'.campaigns cid).requiredVotes = (s.campaigns cid).backersCount / 2 ∧
    (s'.campaigns cid).votingEnabled = true ∧
    (s'.campaigns cid).votingEndTime = now + 604800 := by
  simp only [startVoting] at hok
  repeat split at hok
  all_goals try exact Except.noConfusion hok
  injection hok with h'
  subst h'
  refine ⟨?_, ?_, ?_⟩ <;> simp [Function.update_same]

/-- Explicit effect of a successful (internal) `endVoting` call. -/
theorem endVoting_ok_effects {s s' : State} {cid : Nat}
    (hok : endVoting cid s = .ok s') :
    (s'.campaigns cid).totalVotes = (s.campaigns cid).totalVotes ∧
    (s'.campaigns cid).requiredVotes = (s.campaigns cid).requiredVotes ∧
    (s'.campaigns cid).votingEnabled = false ∧
    (s'.campaigns cid).currentMode = computeWinner (modeVotes s cid) ∧
    s'.voteWeight = s.voteWeight ∧
    s'.voterHasVoted = s.voterHasVoted := by
  simp only [endVoting] at hok
  split at hok
  · injection hok with h'
    subst h'
    refine ⟨?_, ?_, ?_, ?_, rfl, rfl⟩ <;> simp [Function.update_same]
  · exact Except.noConfusion hok

/-- Explicit effect of a successful `vote` call: the weight is the first
entry's amount, it is added to `totalVotes`, and voting closes exactly when
the new `totalVotes` reaches `requiredVotes`. -/
theorem vote_ok_effects {s s' : State} {sender now cid : Nat}
    {mode : FundingMode} (hok : vote sender now cid mode s = .ok s') :
    (s'.campaigns cid).totalVotes =
      (s.campaigns cid).totalVotes +
        headAmount (s.contributions cid sender) ∧
    s'.voteWeight cid sender = headAmount (s.contributions cid sender) ∧
    s'.voterHasVoted cid sender = true ∧
    ((s'.campaigns cid).votingEnabled = false ↔
      (s.campaigns cid).requiredVotes ≤
        (s.campaigns cid).totalVotes +
          headAmount (s.contributions cid sender)) := by
  simp only [vote] at hok
  split at hok
  case isFalse _ => exact Except.noConfusion hok
  case isTrue henb =>
  split at hok
  case isFalse _ => exact Except.noConfusion hok
  case isTrue hnow =>
  split at hok
  case isFalse _ => exact Except.noConfusion hok
  case isTrue hnv =>
  split at hok
  case isFalse _ => exact Except.noConfusion hok
  case isTrue hlen =>
  split at hok
  case isTrue hclose =>
    obtain ⟨ht, hrq, hve, _, hw, hv⟩ := endVoting_ok_effects hok
    try simp only [Function.update_same] at ht
    try simp only [Function.update_same] at hrq
    try simp only [Function.update_same] at hclose
    refine ⟨?_, ?_, ?_, ?_⟩
    · simpa using ht
    · rw [hw]; simp [upd2_self, Function.update_same]
    · rw [hv]; simp [upd2_self, Function.update_same]
    · exact iff_of_true hve (by simpa using hclose)
  case isFalse hopen =>
    injection hok with h'
    subst h'
    refine ⟨?_, ?_, ?_, ?_⟩
    · simp [Function.update_same]
    · simp [upd2_self, Function.update_same]
    · simp [upd2_self, Function.update_same]
    · simp only [Function.update_same] at hopen
      dsimp only
      rw [Function.update_same]
      dsimp only
      rw [henb]
      exact iff_of_false (by simp) (by simpa using hopen)

/-! ## Claims -/

/-- C1: with `contribute`'s recording modelled per the declared
`Contribution[]` type (the source statement itself is ill-typed, see the
doc comment of `contribute`), the ledger invariant holds: in every
reachable state every campaign's `raisedAmount` equals the sum of the
non-refunded amounts of its contribution entries (entries live only under
recorded backers); a successful `contribute` appends one entry and adds
the same amount to `raisedAmount`; a successful `requestRefund` marks all
of the caller's entries refunded, subtracts exactly their non-refunded
total, and preserves the ledger equation. -/
theorem c1_raised_eq_nonRefunded_total :
    (∀ owner s, Reachable owner s → ∀ cid,
      (∀ a, a ∉ (s.campaigns cid).backers → s.contributions cid a = []) ∧
      (s.campaigns cid).raisedAmount =
        ∑ a ∈ (s.campaigns cid).backers.toFinset,
          nonRefundedSum (s.contributions cid a)) ∧
    (∀ s s' sender now value cid,
      contribute sender now value cid s = .ok s' →
      s'.contributions cid sender =
        s.contributions cid sender ++ [⟨value, false⟩] ∧
      (s'.campaigns cid).raisedAmount =
        (s.campaigns cid).raisedAmount + value) ∧
    (∀ s s' sender now cid, LedgerInv s →
      requestRefund sender now cid s = .ok s' →
      s'.contributions cid sender =
        (s.contributions cid sender).map
          (fun e => { e with refunded := true }) ∧
      (s'.campaigns cid).raisedAmount =
        (s.campaigns cid).raisedAmount -
          nonRefundedSum (s.contributions cid sender) ∧
      LedgerInv s') := by
  refine ⟨?_, ?_, ?_⟩
  · intro owner s h cid
    obtain ⟨h1, h2, _⟩ := inv_reachable h
    exact ⟨h1 cid, h2 cid⟩
  · intro s s' sender now value cid hok
    obtain ⟨hc, hr, _⟩ := contribute_ok_effects hok
    exact ⟨hc, hr⟩
  · intro s s' sender now cid h hok
    exact ledger_requestRefund h hok

/-- Witness for C1 at a concrete reachable two-contribution state. -/
theorem c1_raised_eq_nonRefunded_total_witness :
    (doubleContribState.campaigns 0).raisedAmount =
      ∑ a ∈ (doubleContribState.campaigns 0).backers.toFinset,
        nonRefundedSum (doubleContribState.contributions 0 a) :=
  (c1_raised_eq_nonRefunded_total.1 0 doubleContribState
    (reachable_execTrace
      [.createCampaign 1 1 "a" "" 1000 10 "" [.Donation] 0 1000000,
       .contribute 2 2 5 0, .contribute 2 3 5 0]) 0).2

/-- C2 counterexample: a reachable campaign with status `Completed` and
`fundsReleased = false` whose creator's fund-release call fails with
"Campaign not in voting state" instead of succeeding: `finalizeCampaign`
requires status `UnderVoting`, not `Completed`. -/
theorem c2_counterexample :
    (completedState.campaigns 0).status = CampaignStatus.Completed ∧
    (completedState.campaigns 0).fundsReleased = false ∧
    (completedState.campaigns 0).creator = 1 ∧
    finalizeCampaign 1 700000 0 completedState =
      .error "Campaign not in voting state" ∧
    Reachable 0 completedState :=
  ⟨by decide, by decide, by decide, by rfl,
   reachable_execTrace
     [.createCampaign 1 1 "a" "" 1000 10 "" [.Donation] 0 1000000,
      .contribute 2 2 1000 0]⟩

/-- C2 (amended): fund release is `finalizeCampaign`, callable by anyone,
and requires status `UnderVoting` (not `Completed`), the voting deadline
passed, and `fundsReleased = false`; it computes
`fee = floor(raisedAmount * 25 / 1000)` (numerically equal to
`floor(raisedAmount * 250 / 10000)`, i.e. 2.5%), pays
`raisedAmount - fee` to the creator and `fee` to the administrator, sets
`fundsReleased = true` and status `Completed`; a repeated call fails, but
with "Campaign not in voting state", not `AlreadyReleased`. -/
theorem c2_finalize_requires_under_voting (s : State) (sender now cid : Nat)
    (hex : cid < s.campaignIds)
    (hvd : now > (s.campaigns cid).votingDeadline)
    (hst : (s.campaigns cid).status = CampaignStatus.UnderVoting)
    (hfr : (s.campaigns cid).fundsReleased = false)
    (hz : (s.campaigns cid).votesForAllOrNothing ≤
      (s.campaigns cid).votesForKeepRaised)
    (hco : (s.campaigns cid).creator ≠ s.owner) :
    ∃ s', finalizeCampaign sender now cid s = .ok s' ∧
      (s'.campaigns cid).fundsReleased = true ∧
      (s'.campaigns cid).status = CampaignStatus.Completed ∧
      s'.transferred ((s.campaigns cid).creator) =
        s.transferred ((s.campaigns cid).creator) +
          ((s.campaigns cid).raisedAmount -
            (s.campaigns cid).raisedAmount * platformFee / 1000) ∧
      s'.transferred s.owner =
        s.transferred s.owner +
          (s.campaigns cid).raisedAmount * platformFee / 1000 ∧
      (s.campaigns cid).raisedAmount * platformFee / 1000 =
        (s.campaigns cid).raisedAmount * 250 / 10000 ∧
      (∀ sender2 now2, now2 > (s.campaigns cid).votingDeadline →
        finalizeCampaign sender2 now2 cid s' =
          .error "Campaign not in voting state") := by
  have hnA : ¬((s.campaigns cid).votesForAllOrNothing >
      (s.campaigns cid).votesForKeepRaised) := by omega
  have hokshape : finalizeCampaign sender now cid s =
      .ok { s with
            campaigns := Function.update s.campaigns cid
              ({ s.campaigns cid with
                 isAllOrNothing :=
                   decide ((s.campaigns cid).votesForAllOrNothing >
                     (s.campaigns cid).votesForKeepRaised)
                 fundsReleased := true
                 status := CampaignStatus.Completed })
            transferred := sendValue
              (sendValue s.transferred (s.campaigns cid).creator
                ((s.campaigns cid).raisedAmount -
                  (s.campaigns cid).raisedAmount * platformFee / 1000))
              s.owner
              ((s.campaigns cid).raisedAmount * platformFee / 1000) } := by
    simp only [finalizeCampaign]
    rw [if_pos hex, if_pos hvd, if_pos hst, if_pos hfr,
      if_neg (fun hcon => hnA hcon.1)]
  refine ⟨_, hokshape, ?_, ?_, ?_, ?_, ?_, ?_⟩
  · simp [Function.update_same]
  · simp [Function.update_same]
  · dsimp only
    simp only [sendValue]
    rw [Function.update_noteq hco, Function.update_same]
  · dsimp only
    simp only [sendValue]
    rw [Function.update_same, Function.update_noteq (Ne.symm hco)]
  · have hnum : (s.campaigns cid).raisedAmount * 250 =
        (s.campaigns cid).raisedAmount * 25 * 10 := by ring
    rw [hnum, show (10000 : Nat) = 1000 * 10 from rfl,
      Nat.mul_div_mul_right _ _ (by norm_num : (0 : Nat) < 10)]
    rfl
  · intro sender2 now2 hnow2
    simp only [finalizeCampaign]
    dsimp only
    simp only [Function.update_same]
    rw [if_pos hex, if_pos hnow2,
      if_neg (by simp : ¬(CampaignStatus.Completed =
        CampaignStatus.UnderVoting))]

/-- Witness for C2's amended theorem at a concrete `UnderVoting`
campaign with `raisedAmount = 1000`: the creator (address 1) is paid 975
and the administrator (address 0) 25. -/
theorem c2_finalize_requires_under_voting_witness :
    ∃ s', finalizeCampaign 5 700000 0 underVotingState = .ok s' ∧
      (s'.campaigns 0).fundsReleased = true ∧
      (s'.campaigns 0).status = CampaignStatus.Completed ∧
      s'.transferred ((underVotingState.campaigns 0).creator) =
        underVotingState.transferred
          ((underVotingState.campaigns 0).creator) +
          ((underVotingState.campaigns 0).raisedAmount -
            (underVotingState.campaigns 0).raisedAmount * platformFee /
              1000) ∧
      s'.transferred underVotingState.owner =
        underVotingState.transferred underVotingState.owner +
          (underVotingState.campaigns 0).raisedAmount * platformFee /
            1000 ∧
      (underVotingState.campaigns 0).raisedAmount * platformFee / 1000 =
        (underVotingState.campaigns 0).raisedAmount * 250 / 10000 ∧
      (∀ sender2 now2,
        now2 > (underVotingState.campaigns 0).votingDeadline →
        finalizeCampaign sender2 now2 0 s' =
          .error "Campaign not in voting state") :=
  c2_finalize_requires_under_voting underVotingState 5 700000 0
    (by decide) (by decide) (by decide) (by decide) (by decide) (by decide)

/-- C9: in every reachable state, every campaign's
`votesForAllOrNothing` and `votesForKeepRaised` are zero (no operation
writes them), no campaign is ever `Failed`, every successful
`finalizeCampaign` takes the fund-release branch (`fundsReleased = true`,
status `Completed`), and `requestRefund` can never succeed. -/
theorem c9_legacy_tally_dead (owner : Addr) (s : State)
    (h : Reachable owner s) :
    (∀ cid, (s.campaigns cid).votesForAllOrNothing = 0 ∧
      (s.campaigns cid).votesForKeepRaised = 0) ∧
    (∀ cid, (s.campaigns cid).status ≠ CampaignStatus.Failed) ∧
    (∀ sender now cid s', finalizeCampaign sender now cid s = .ok s' →
      (s'.campaigns cid).fundsReleased = true ∧
      (s'.campaigns cid).status = CampaignStatus.Completed) ∧
    (∀ sender now cid, execOk (requestRefund sender now cid s) = false) := by
  obtain ⟨h1, h2, h3, h4, h5, h6, h7⟩ := inv_reachable h
  refine ⟨fun cid => ⟨h3 cid, h4 cid⟩, h5, ?_, ?_⟩
  · intro sender now cid s' hok
    simp only [finalizeCampaign] at hok
    repeat split at hok
    all_goals try exact Except.noConfusion hok
    all_goals try (exfalso; have := h3 cid; omega)
    injection hok with h'
    subst h'
    constructor <;> simp [Function.update_same]
  · intro sender now cid
    cases hres : requestRefund sender now cid s with
    | error e => rfl
    | ok s1 =>
      exfalso
      simp only [requestRefund] at hres
      repeat split at hres
      all_goals try exact Except.noConfusion hres
      all_goals exact h5 cid (by assumption)

/-- Witness for C9 at a concrete reachable completed campaign. -/
theorem c9_legacy_tally_dead_witness :
    (completedState.campaigns 0).votesForAllOrNothing = 0 ∧
    (completedState.campaigns 0).votesForKeepRaised = 0 ∧
    execOk (requestRefund 2 50 0 completedState) = false := by
  have h := c9_legacy_tally_dead 0 completedState
    (reachable_execTrace
      [.createCampaign 1 1 "a" "" 1000 10 "" [.Donation] 0 1000000,
       .contribute 2 2 1000 0])
  exact ⟨(h.1 0).1, (h.1 0).2, h.2.2.2 2 50 0⟩

/-- C10: in every reachable state the views `getVote` and `hasVoted`
read the never-written `campaignVotes` mapping, so `getVote` returns
`(false, false)` and `hasVoted` never returns `true` for any pair — even
directly after a successful `vote`, which records its flag in the
separate `voterHasVoted` mapping. -/
theorem c10_campaignVotes_never_written (owner : Addr) (s : State)
    (h : Reachable owner s) :
    (∀ cid voter, getVote s cid voter = (false, false)) ∧
    (∀ cid voter b, hasVoted s cid voter = .ok b → b = false) ∧
    (∀ sender now cid mode s', vote sender now cid mode s = .ok s' →
      s'.voterHasVoted cid sender = true ∧
      ∀ voter, getVote s' cid voter = (false, false)) := by
  have h6 := (inv_reachable h).2.2.2.2.2.1
  refine ⟨?_, ?_, ?_⟩
  · intro cid voter
    simp [getVote, h6 cid voter]
  · intro cid voter b hok
    simp only [hasVoted] at hok
    split at hok
    · injection hok with h'
      rw [← h', h6 cid voter]
    · exact Except.noConfusion hok
  · intro sender now cid mode s' hok
    have hs' : Reachable owner s' := by
      have hstep : step (Act.vote sender now cid mode) s = s' := by
        simp [step, Act.run, hok]
      rw [← hstep]
      exact Reachable.step h _
    have h6' := (inv_reachable hs').2.2.2.2.2.1
    obtain ⟨_, _, hv, _⟩ := vote_ok_effects hok
    exact ⟨hv, fun voter => by simp [getVote, h6' cid voter]⟩

/-- Witness for C10: after backer 2's successful vote, the recorded flag
is set but `getVote` still reports `(false, false)`. -/
theorem c10_campaignVotes_never_written_witness :
    votedState.voterHasVoted 0 2 = true ∧
    getVote votedState 0 2 = (false, false) := by
  have h := (c10_campaignVotes_never_written 0 votingOpenState
    (Reachable.step (reachable_execTrace
      [.createCampaign 1 1 "a" "" 100 10 "" [.Donation] 0 100,
       .contribute 2 2 100 0]) (Act.startVoting 1 3 0))).2.2
    2 4 0 FundingMode.Donation votedState (by rfl)
  exact ⟨h.1, h.2 2⟩

/-- C3 counterexample: a reachable state in which exactly one distinct
voter has voted, yet the campaign's `totalVotes` is 100 (the vote's
monetary weight), so `totalVotes` is not a voter headcount. -/
theorem c3_counterexample :
    (votedState.campaigns 0).totalVotes = 100 ∧
    ((votedState.campaigns 0).backers.dedup.filter
      (fun a => votedState.voterHasVoted 0 a)).length = 1 ∧
    (100 : Nat) ≠ 1 ∧
    Reachable 0 votedState :=
  ⟨by decide, by decide, by decide,
   Reachable.step (Reachable.step (reachable_execTrace
     [.createCampaign 1 1 "a" "" 100 10 "" [.Donation] 0 100,
      .contribute 2 2 100 0]) (Act.startVoting 1 3 0))
     (Act.vote 2 4 0 .Donation)⟩

/-- C3 (amended): `startVoting` sets
`requiredVotes = floor(backersCount / 2)` (where `backersCount` counts
contributions, not distinct backers); each successful `vote` adds the
vote's monetary weight — the first contribution entry's amount — to
`totalVotes`, and voting closes early exactly when this weighted
accumulator reaches `requiredVotes`, so the early-close comparison is
weight against a count-derived threshold, not a voter headcount. -/
theorem c3_totalVotes_is_weight (s : State) (sender now cid : Nat)
    (mode : FundingMode) :
    (∀ s', startVoting sender now cid s = .ok s' →
      (s'.campaigns cid).requiredVotes =
        (s.campaigns cid).backersCount / 2) ∧
    (∀ s', vote sender now cid mode s = .ok s' →
      (s'.campaigns cid).totalVotes =
        (s.campaigns cid).totalVotes +
          headAmount (s.contributions cid sender) ∧
      ((s'.campaigns cid).votingEnabled = false ↔
        (s.campaigns cid).requiredVotes ≤
          (s.campaigns cid).totalVotes +
            headAmount (s.contributions cid sender))) :=
  ⟨fun _ hok => (startVoting_ok_effects hok).1,
   fun _ hok => ⟨(vote_ok_effects hok).1, (vote_ok_effects hok).2.2.2⟩⟩

/-- Witness for C3's amended theorem on the concrete funded campaign. -/
theorem c3_totalVotes_is_weight_witness :
    (votingOpenState.campaigns 0).requiredVotes =
      (fundedState.campaigns 0).backersCount / 2 ∧
    (votedState.campaigns 0).totalVotes =
      (votingOpenState.campaigns 0).totalVotes +
        headAmount (votingOpenState.contributions 0 2) :=
  ⟨(c3_totalVotes_is_weight fundedState 1 3 0 .Donation).1
     votingOpenState (by rfl),
   ((c3_totalVotes_is_weight votingOpenState 2 4 0 .Donation).2
     votedState (by rfl)).1⟩

/-- C4 counterexample: backer 2 holds the entries 30, 30, 40 (non-refunded
total 100), but the recorded vote weight is 30 — only the first entry's
amount, not the sum. -/
theorem c4_counterexample :
    threeEntriesVoted.voteWeight 0 2 = 30 ∧
    nonRefundedSum (threeEntriesVoted.contributions 0 2) = 100 ∧
    (30 : Nat) ≠ 100 ∧
    Reachable 0 threeEntriesVoted :=
  ⟨by decide, by decide, by decide,
   Reachable.step (reachable_execTrace
     [.createCampaign 1 1 "a" "" 100 10 "" [.Donation] 0 100,
      .contribute 2 2 30 0, .contribute 2 3 30 0, .contribute 2 4 40 0,
      .startVoting 1 5 0]) (Act.vote 2 6 0 .Donation)⟩

/-- C4 (amended): the weight recorded by a successful `vote` is the amount
of the voter's first contribution entry (refunded or not), not the sum of
the non-refunded entries; it is snapshotted at vote time and unchanged by
any later contribution. -/
theorem c4_weight_is_first_entry (s : State) (sender now cid : Nat)
    (mode : FundingMode) :
    ∀ s', vote sender now cid mode s = .ok s' →
      s'.voteWeight cid sender = headAmount (s.contributions cid sender) ∧
      ∀ sender2 now2 value2 s'',
        contribute sender2 now2 value2 cid s' = .ok s'' →
        s''.voteWeight = s'.voteWeight :=
  fun _ hok => ⟨(vote_ok_effects hok).2.1,
    fun _ _ _ _ hok2 => (contribute_ok_effects hok2).2.2.2.2⟩

/-- Witness for C4's amended theorem: the recorded weight equals the first
entry's amount on the concrete three-entry campaign. -/
theorem c4_weight_is_first_entry_witness :
    threeEntriesVoted.voteWeight 0 2 =
      headAmount (threeEntriesState.contributions 0 2) :=
  (c4_weight_is_first_entry threeEntriesState 2 6 0 .Donation
    threeEntriesVoted (by rfl)).1

/-- C5 counterexample: after address 2 contributes twice, the backer
sequence is the duplicated [2, 2] and `backersCount` is 2, although there
is a single distinct contributor. -/
theorem c5_counterexample :
    (doubleContribState.campaigns 0).backers = [2, 2] ∧
    (doubleContribState.campaigns 0).backersCount = 2 ∧
    ¬ (doubleContribState.campaigns 0).backers.Nodup ∧
    (doubleContribState.campaigns 0).backers.dedup.length = 1 ∧
    Reachable 0 doubleContribState :=
  ⟨by decide, by decide, by decide, by decide,
   reachable_execTrace
     [.createCampaign 1 1 "a" "" 1000 10 "" [.Donation] 0 1000000,
      .contribute 2 2 5 0, .contribute 2 3 5 0]⟩

/-- C5 (amended): every successful `contribute` unconditionally appends
the sender to the backer sequence and increments `backersCount` — there
is no first-contribution dedup — so in every reachable state
`backersCount` equals the length of the (possibly duplicated) backer
sequence, i.e. the number of successful contributions, not the number of
distinct contributors. -/
theorem c5_backers_count_contributions :
    (∀ s s' sender now value cid,
      contribute sender now value cid s = .ok s' →
      (s'.campaigns cid).backers = (s.campaigns cid).backers ++ [sender] ∧
      (s'.campaigns cid).backersCount =
        (s.campaigns cid).backersCount + 1) ∧
    (∀ owner s, Reachable owner s → ∀ cid,
      (s.campaigns cid).backersCount =
        (s.campaigns cid).backers.length) :=
  ⟨fun _ _ _ _ _ _ hok =>
    ⟨(contribute_ok_effects hok).2.2.1, (contribute_ok_effects hok).2.2.2.1⟩,
   fun _ _ h cid => (inv_reachable h).2.2.2.2.2.2 cid⟩

/-- Witness for C5's amended theorem on the concrete double-contribution
trace. -/
theorem c5_backers_count_contributions_witness :
    (doubleContribState.campaigns 0).backers =
      (singleContribState.campaigns 0).backers ++ [2] ∧
    (doubleContribState.campaigns 0).backersCount =
      (singleContribState.campaigns 0).backersCount + 1 ∧
    (doubleContribState.campaigns 0).backersCount =
      (doubleContribState.campaigns 0).backers.length :=
  ⟨(c5_backers_count_contributions.1 singleContribState doubleContribState
      2 3 5 0 (by rfl)).1,
   (c5_backers_count_contributions.1 singleContribState doubleContribState
      2 3 5 0 (by rfl)).2,
   c5_backers_count_contributions.2 0 doubleContribState
     (reachable_execTrace
       [.createCampaign 1 1 "a" "" 1000 10 "" [.Donation] 0 1000000,
        .contribute 2 2 5 0, .contribute 2 3 5 0]) 0⟩

/-- C6 counterexample: a reachable campaign past its deadline (10 < 20)
with 400 of 1000 raised; the creator's `startVoting` call fails with
"Target not reached" instead of succeeding. -/
theorem c6_counterexample :
    (shortfallState.campaigns 0).deadline = 10 ∧
    (shortfallState.campaigns 0).raisedAmount = 400 ∧
    (shortfallState.campaigns 0).targetAmount = 1000 ∧
    (shortfallState.campaigns 0).creator = 1 ∧
    (shortfallState.campaigns 0).votingEnabled = false ∧
    startVoting 1 20 0 shortfallState = .error "Target not reached" ∧
    Reachable 0 shortfallState :=
  ⟨by decide, by decide, by decide, by decide, by decide, by rfl,
   reachable_execTrace
     [.createCampaign 1 1 "a" "" 1000 10 "" [.Donation] 0 1000000,
      .contribute 2 2 400 0]⟩

/-- C6 (amended): `startVoting` succeeds exactly when the caller is the
creator, voting is not already enabled, and `raisedAmount ≥ targetAmount`
— a passed deadline is not an alternative: the call's outcome does not
depend on the deadline or the current time at all. -/
theorem c6_start_voting_needs_target (s : State) (sender now cid : Nat) :
    execOk (startVoting sender now cid s) = true ↔
      (sender = (s.campaigns cid).creator ∧
        (s.campaigns cid).votingEnabled = false ∧
        (s.campaigns cid).raisedAmount ≥ (s.campaigns cid).targetAmount) := by
  simp only [startVoting]
  split_ifs with h1 h2 h3 <;> simp_all [execOk]

/-- Witness for C6's amended theorem: on the funded campaign the creator's
call succeeds. -/
theorem c6_start_voting_needs_target_witness :
    execOk (startVoting 1 3 0 fundedState) = true :=
  (c6_start_voting_needs_target fundedState 1 3 0).mpr
    ⟨by decide, by decide, by decide⟩

/-- C7 counterexample: two reachable runs with identical vote records
(backer 2 voted Debit with weight 3, backer 3 voted Donation with weight
3, nobody else voted) elect different winners — Donation in the first,
Debit in the second, where backer 2 contributed twice and is counted
twice in the tally — so the winner is not a function of the votes alone. -/
theorem c7_counterexample :
    tieTraceA.voterHasVoted = tieTraceB.voterHasVoted ∧
    tieTraceA.votes = tieTraceB.votes ∧
    tieTraceA.voteWeight = tieTraceB.voteWeight ∧
    (tieTraceA.campaigns 0).currentMode = FundingMode.Donation ∧
    (tieTraceB.campaigns 0).currentMode = FundingMode.Debit ∧
    FundingMode.Donation ≠ FundingMode.Debit ∧
    Reachable 0 tieTraceA ∧ Reachable 0 tieTraceB := by
  have hA : tieTraceA.voterHasVoted =
      upd2 (upd2 (fun _ _ => false) 0 2 true) 0 3 true := by rfl
  have hB : tieTraceB.voterHasVoted =
      upd2 (upd2 (fun _ _ => false) 0 2 true) 0 3 true := by rfl
  have hA2 : tieTraceA.votes =
      upd2 (upd2 (fun _ _ => FundingMode.Donation) 0 2 .Debit) 0 3
        .Donation := by rfl
  have hB2 : tieTraceB.votes =
      upd2 (upd2 (fun _ _ => FundingMode.Donation) 0 2 .Debit) 0 3
        .Donation := by rfl
  have hA3 : tieTraceA.voteWeight =
      upd2 (upd2 (fun _ _ => 0) 0 2 3) 0 3 3 := by rfl
  have hB3 : tieTraceB.voteWeight =
      upd2 (upd2 (fun _ _ => 0) 0 2 3) 0 3 3 := by rfl
  refine ⟨hA.trans hB.symm, hA2.trans hB2.symm, hA3.trans hB3.symm,
    by decide, by decide, by decide, ?_, ?_⟩
  · exact reachable_execTrace
      [.createCampaign 1 1 "a" "" 12 10 "" [.Donation] 0 1000000,
       .contribute 2 2 3 0, .contribute 3 2 3 0,
       .contribute 4 2 1 0, .contribute 5 2 1 0, .contribute 6 2 1 0,
       .contribute 7 2 1 0, .contribute 8 2 1 0, .contribute 9 2 1 0,
       .startVoting 1 3 0,
       .vote 2 4 0 .Debit, .vote 3 5 0 .Donation]
  · exact reachable_execTrace
      [.createCampaign 1 1 "a" "" 14 10 "" [.Donation] 0 1000000,
       .contribute 2 2 3 0, .contribute 2 2 3 0, .contribute 3 2 3 0,
       .contribute 4 2 1 0, .contribute 5 2 1 0, .contribute 6 2 1 0,
       .contribute 7 2 1 0, .contribute 8 2 1 0,
       .startVoting 1 3 0,
       .vote 2 4 0 .Debit, .vote 3 5 0 .Donation]

/-- C7 (amended): the winner scan is deterministic in the per-mode
tallies: it picks the least-ordinal mode among those with the greatest
accumulated weight (strict-greater scan in enum order, ties to the lower
ordinal), and a closed `endVoting` records exactly
`computeWinner (modeVotes ..)`; but each tally counts a voter's weight
once per occurrence of the voter in the backer sequence (one occurrence
per contribution), so the winner is a function of the votes together with
the backer sequence, not of the votes alone. -/
theorem c7_winner_least_ordinal_argmax :
    (∀ t : FundingMode → Nat,
      (∀ m, t m ≤ t (computeWinner t)) ∧
      (∀ m, m.toIdx < (computeWinner t).toIdx →
        t m < t (computeWinner t))) ∧
    (∀ s cid s', endVoting cid s = .ok s' →
      (s'.campaigns cid).currentMode = computeWinner (modeVotes s cid)) :=
  ⟨computeWinner_spec,
   fun _ _ _ hok => (endVoting_ok_effects hok).2.2.2.1⟩

/-- Witness for C7's amended theorem: on the tied tally (Donation 3,
Debit 3) the winner is the lower-ordinal Donation, and a concrete
`endVoting` run records `computeWinner` of its tallies. -/
theorem c7_winner_least_ordinal_argmax_witness :
    tieTally .Debit ≤ tieTally (computeWinner tieTally) ∧
    computeWinner tieTally = FundingMode.Donation ∧
    (endVotingResult.campaigns 0).currentMode =
      computeWinner (modeVotes votingOpenState 0) :=
  ⟨(c7_winner_least_ordinal_argmax.1 tieTally).1 .Debit, by decide,
   c7_winner_least_ordinal_argmax.2 votingOpenState 0 endVotingResult
     (by rfl)⟩

/-- C8 counterexample: on a reachable Active campaign with
`minContribution = 10` and `maxContribution = 20`, a contribution of 9
(minContribution − 1) succeeds instead of failing `BelowMinimum`, and a
contribution of 21 (maxContribution + 1) succeeds instead of failing
`AboveMaximum`: the bounds are never checked. -/
theorem c8_counterexample :
    (boundedState.campaigns 0).minContribution = 10 ∧
    (boundedState.campaigns 0).maxContribution = 20 ∧
    (boundedState.campaigns 0).status = CampaignStatus.Active ∧
    execOk (contribute 2 2 9 0 boundedState) = true ∧
    execOk (contribute 2 2 21 0 boundedState) = true ∧
    Reachable 0 boundedState :=
  ⟨by decide, by decide, by decide, by decide, by decide,
   reachable_execTrace
     [.createCampaign 1 1 "a" "" 1000 10 "" [.Donation] 10 20]⟩

/-- C8 (amended): `contribute` succeeds exactly when the campaign is
Active, the amount is positive, and the deadline has not passed;
`minContribution` and `maxContribution` are stored at creation but never
enforced, so amounts outside [minContribution, maxContribution] are
accepted and only a zero amount is rejected. -/
theorem c8_no_bounds_check (s : State) (sender now value cid : Nat) :
    execOk (contribute sender now value cid s) = true ↔
      ((s.campaigns cid).status = CampaignStatus.Active ∧ 0 < value ∧
        now ≤ (s.campaigns cid).deadline) := by
  simp only [contribute]
  split_ifs with h1 h2 h3 <;> simp_all [execOk]

/-- Witness for C8's amended theorem: a below-minimum amount (9 < 10) is
accepted on the concrete bounded campaign. -/
theorem c8_no_bounds_check_witness :
    execOk (contribute 2 2 9 0 boundedState) = true :=
  (c8_no_bounds_check boundedState 2 2 9 0).mpr
    ⟨by decide, by decide, by decide⟩

end Crowdfunding
